import Mathlib

/-!
Verification of the StudyMate WhatsApp relay (`src/app.py`) conversation-state
and turn-dispatch logic.  The Python source is shallowly embedded below:

* JSON values and a strict parser embedding Python's `json.loads` on the
  JSON grammar (objects, arrays, strings with escapes, numbers, literals);
* Python string helpers (`str.split()`, `str.strip()`, substring `in`,
  truthiness) used by the dispatcher;
* the user record, the inbound-message shape, and a `TurnResult` recording
  the store writes, the session history, the outbound sends and the prompts
  passed to the model gateway;
* the functions `strip_fences`, `get_gemini`, `build_prompt`,
  `process_user_message` and the POST branch of `webhook`, translated
  line by line.

External collaborators (Firestore, the WhatsApp send API, Gemini, speech
transcription) are inputs/outputs of the model: the gateway outcome for the
turn is a parameter, sends are recorded in a list, store writes are folded
into the returned user record.
-/

/-- JSON values as returned by Python's `json.loads`.  Non-integer numbers
are kept symbolically as their lexeme (`fnum`): no claim computes with
float values, only with the success/failure of decoding. -/
inductive Json where
  | str (s : String)
  | num (n : Int)
  | fnum (lexeme : String)
  | bool (b : Bool)
  | null
  | obj (fields : List (String × Json))
  | arr (elems : List Json)

/-- JSON whitespace accepted between tokens by `json.loads`. -/
def jsonWs (c : Char) : Bool :=
  c = ' ' || c = '\t' || c = '\n' || c = '\r'

/-- Skip leading JSON whitespace. -/
def skipWs : List Char → List Char
  | [] => []
  | c :: cs => if jsonWs c then skipWs cs else c :: cs

/-- Value of a hexadecimal digit, for `\uXXXX` escapes. -/
def hexVal (c : Char) : Option Nat :=
  if '0' ≤ c ∧ c ≤ '9' then some (c.toNat - '0'.toNat)
  else if 'a' ≤ c ∧ c ≤ 'f' then some (c.toNat - 'a'.toNat + 10)
  else if 'A' ≤ c ∧ c ≤ 'F' then some (c.toNat - 'A'.toNat + 10)
  else none

/-- Parse the body of a JSON string (the opening quote already consumed),
returning the decoded characters and the rest of the input.  Mirrors the
strict `json.loads` string rules: escapes, and a raw control character
(< 0x20) is rejected. -/
def parseStringBody : Nat → List Char → Option (List Char × List Char)
  | 0, _ => none
  | _, [] => none
  | fuel + 1, c :: cs =>
    if c = '"' then some ([], cs)
    else if c = '\\' then
      match cs with
      | [] => none
      | e :: cs2 =>
        if e = '"' then (parseStringBody fuel cs2).map (fun p => ('"' :: p.1, p.2))
        else if e = '\\' then (parseStringBody fuel cs2).map (fun p => ('\\' :: p.1, p.2))
        else if e = '/' then (parseStringBody fuel cs2).map (fun p => ('/' :: p.1, p.2))
        else if e = 'n' then (parseStringBody fuel cs2).map (fun p => ('\n' :: p.1, p.2))
        else if e = 't' then (parseStringBody fuel cs2).map (fun p => ('\t' :: p.1, p.2))
        else if e = 'r' then (parseStringBody fuel cs2).map (fun p => ('\r' :: p.1, p.2))
        else if e = 'b' then (parseStringBody fuel cs2).map (fun p => (Char.ofNat 8 :: p.1, p.2))
        else if e = 'f' then (parseStringBody fuel cs2).map (fun p => (Char.ofNat 12 :: p.1, p.2))
        else if e = 'u' then
          match cs2 with
          | h1 :: h2 :: h3 :: h4 :: cs3 =>
            match hexVal h1, hexVal h2, hexVal h3, hexVal h4 with
            | some a, some b, some c2, some d =>
              (parseStringBody fuel cs3).map
                (fun p => (Char.ofNat (((a * 16 + b) * 16 + c2) * 16 + d) :: p.1, p.2))
            | _, _, _, _ => none
          | _ => none
        else none
    else if c.toNat < 32 then none
    else (parseStringBody fuel cs).map (fun p => (c :: p.1, p.2))

/-- Take the maximal run of decimal digits. -/
def spanDigits : List Char → List Char × List Char
  | [] => ([], [])
  | c :: cs =>
    if c.isDigit then
      let p := spanDigits cs
      (c :: p.1, p.2)
    else ([], c :: cs)

/-- Numeric value of a digit run. -/
def digitsToNat (ds : List Char) : Nat :=
  ds.foldl (fun n c => n * 10 + (c.toNat - '0'.toNat)) 0

/-- Parse the optional exponent part of a JSON number; returns the consumed
lexeme characters and the rest, or `none` when an `e`/`E` is present but
malformed.  `some (none, s)` means: no exponent part. -/
def parseExpPart (s : List Char) : Option (Option (List Char) × List Char) :=
  match s with
  | 'e' :: t =>
    match t with
    | '+' :: u =>
      let p := spanDigits u
      if p.1 = [] then none else some (some ('e' :: '+' :: p.1), p.2)
    | '-' :: u =>
      let p := spanDigits u
      if p.1 = [] then none else some (some ('e' :: '-' :: p.1), p.2)
    | u =>
      let p := spanDigits u
      if p.1 = [] then none else some (some ('e' :: p.1), p.2)
  | 'E' :: t =>
    match t with
    | '+' :: u =>
      let p := spanDigits u
      if p.1 = [] then none else some (some ('E' :: '+' :: p.1), p.2)
    | '-' :: u =>
      let p := spanDigits u
      if p.1 = [] then none else some (some ('E' :: '-' :: p.1), p.2)
    | u =>
      let p := spanDigits u
      if p.1 = [] then none else some (some ('E' :: p.1), p.2)
  | _ => some (none, s)

/-- Parse a JSON number (strict grammar: optional minus, no leading zeros,
optional fraction and exponent).  Integers become `Json.num`; numbers with a
fraction or exponent become symbolic `Json.fnum`. -/
def parseNumber (s : List Char) : Option (Json × List Char) :=
  let signed : Bool × List Char := match s with
    | '-' :: t => (true, t)
    | t => (false, t)
  let neg := signed.1
  let s1 := signed.2
  let ip := spanDigits s1
  if ip.1 = [] then none
  else if ip.1.length > 1 ∧ ip.1.headD '0' = '0' then none
  else
    let mkInt : Json := Json.num (if neg then -(digitsToNat ip.1 : Int) else (digitsToNat ip.1 : Int))
    let signChars : List Char := if neg then ['-'] else []
    match ip.2 with
    | '.' :: r2 =>
      let fp := spanDigits r2
      if fp.1 = [] then none
      else
        match parseExpPart fp.2 with
        | none => none
        | some (ep, rest) =>
          some (Json.fnum (String.mk (signChars ++ ip.1 ++ '.' :: fp.1 ++ ep.getD [])), rest)
    | r2 =>
      match parseExpPart r2 with
      | none => none
      | some (none, rest) => some (mkInt, rest)
      | some (some ex, rest) =>
        some (Json.fnum (String.mk (signChars ++ ip.1 ++ ex)), rest)

mutual

/-- Parse one JSON value (strict `json.loads` grammar), fuel-indexed. -/
def parseValue : Nat → List Char → Option (Json × List Char)
  | 0, _ => none
  | fuel + 1, s =>
    match skipWs s with
    | [] => none
    | '"' :: cs =>
      (parseStringBody (cs.length + 1) cs).map (fun p => (Json.str (String.mk p.1), p.2))
    | '{' :: cs =>
      (match skipWs cs with
       | '}' :: rest => some (Json.obj [], rest)
       | cs2 => (parseMembers fuel cs2 []).map (fun p => (Json.obj p.1, p.2)))
    | '[' :: cs =>
      (match skipWs cs with
       | ']' :: rest => some (Json.arr [], rest)
       | cs2 => (parseElems fuel cs2 []).map (fun p => (Json.arr p.1, p.2)))
    | 't' :: 'r' :: 'u' :: 'e' :: rest => some (Json.bool true, rest)
    | 'f' :: 'a' :: 'l' :: 's' :: 'e' :: rest => some (Json.bool false, rest)
    | 'n' :: 'u' :: 'l' :: 'l' :: rest => some (Json.null, rest)
    | c :: cs => parseNumber (c :: cs)

/-- Parse `"key" : value ( , "key" : value )* }` inside an object. -/
def parseMembers : Nat → List Char → List (String × Json) →
    Option (List (String × Json) × List Char)
  | 0, _, _ => none
  | fuel + 1, s, acc =>
    match skipWs s with
    | '"' :: cs =>
      match parseStringBody (cs.length + 1) cs with
      | none => none
      | some (kchars, rest) =>
        match skipWs rest with
        | ':' :: rest2 =>
          match parseValue fuel rest2 with
          | none => none
          | some (v, rest3) =>
            match skipWs rest3 with
            | ',' :: rest4 => parseMembers fuel rest4 (acc ++ [(String.mk kchars, v)])
            | '}' :: rest4 => some (acc ++ [(String.mk kchars, v)], rest4)
            | _ => none
        | _ => none
    | _ => none

/-- Parse `value ( , value )* ]` inside an array. -/
def parseElems : Nat → List Char → List Json → Option (List Json × List Char)
  | 0, _, _ => none
  | fuel + 1, s, acc =>
    match parseValue fuel s with
    | none => none
    | some (v, rest) =>
      match skipWs rest with
      | ',' :: rest2 => parseElems fuel rest2 (acc ++ [v])
      | ']' :: rest2 => some (acc ++ [v], rest2)
      | _ => none

end

/-- Convert the first object/array/member hit into the result of `json.loads`:
one value, whole input consumed (up to trailing whitespace), else failure.
Embeds `json.loads` from `src/app.py` lines 245 and error behaviour of
line 248. -/
def json_loads (s : String) : Option Json :=
  match parseValue (2 * s.length + 2) s.data with
  | some (v, rest) => if skipWs rest = [] then some v else none
  | none => none

/-- Embeds `dict.get(k)` on a decoded JSON object: Python keeps the *last* binding
for a duplicated key, so look up from the right. -/
def dictGet (fields : List (String × Json)) (k : String) : Option Json :=
  (fields.reverse.find? (fun p => p.1 = k)).map (fun p => p.2)

/-!
Python string primitives, implemented by structural recursion over the
character list (the core `String` functions use well-founded recursion and
do not reduce in the kernel). -/

/-- Strip leading and trailing whitespace from a character list
(Python `str.strip()` / core `.strip()` calls in the source). -/
def trimChars (cs : List Char) : List Char :=
  ((cs.dropWhile fun c => c.isWhitespace).reverse.dropWhile fun c => c.isWhitespace).reverse

/-- Python `str.strip()`. -/
def pyStrip (s : String) : String := String.mk (trimChars s.data)

/-- Tests whether `p` is a prefix of `cs` (for `str.startswith`). -/
def prefChars : List Char → List Char → Bool
  | [], _ => true
  | _ :: _, [] => false
  | p :: ps, c :: cs => p = c && prefChars ps cs

/-- Tests whether `p` is a suffix of `cs` (for `str.endswith`). -/
def sufChars (p cs : List Char) : Bool := prefChars p.reverse cs.reverse

/-- Tests whether `needle` occurs as a contiguous substring of the second list:
Python's `needle in hay`. -/
def containsChars : List Char → List Char → Bool
  | needle, [] => needle.isEmpty
  | needle, c :: cs => prefChars needle (c :: cs) || containsChars needle cs

/-- Python `sub in s` (substring test). -/
def pyIn (sub s : String) : Bool := containsChars sub.data s.data

/-- Python `str.lower()` (the source only lowercases ASCII text). -/
def pyLower (s : String) : String := String.mk (s.data.map Char.toLower)

/-- Worker for `str.split()`: split on whitespace runs, discarding empty
pieces; `acc` holds the current token reversed. -/
def splitWsAux : List Char → List Char → List String
  | [], acc => if acc.isEmpty then [] else [String.mk acc.reverse]
  | c :: cs, acc =>
    if c.isWhitespace then
      if acc.isEmpty then splitWsAux cs [] else String.mk acc.reverse :: splitWsAux cs []
    else splitWsAux cs (c :: acc)

/-- Python `str.split()` with no argument. -/
def pySplit (s : String) : List String := splitWsAux s.data []

/-- Python `sep.join(parts)` (`str.join`). -/
def joinSep (sep : String) : List String → String
  | [] => ""
  | [x] => x
  | x :: xs => x ++ sep ++ joinSep sep xs

/-- Decimal digits of a natural number, fuel-indexed. -/
def natToDigits : Nat → Nat → List Char
  | 0, _ => []
  | fuel + 1, n =>
    if n < 10 then [Char.ofNat (48 + n)]
    else natToDigits fuel (n / 10) ++ [Char.ofNat (48 + n % 10)]

/-- Python `str()` of an integer. -/
def intToDec (n : Int) : String :=
  match n with
  | .ofNat m => String.mk (natToDigits (m + 1) m)
  | .negSucc m => String.mk ('-' :: natToDigits (m + 2) (m + 1))

mutual

/-- Python `str()` of a decoded JSON value as it appears nested in a
container (`repr`): strings get single quotes (quote-escaping inside the
rendered string is not modelled; no claim evaluates it on such values),
numbers print decimally, `True`/`False`/`None` as in Python. -/
def pyRepr : Json → String
  | .str s => "'" ++ s ++ "'"
  | .num n => intToDec n
  | .fnum s => s
  | .bool b => if b then "True" else "False"
  | .null => "None"
  | .arr xs => "[" ++ joinSep ", " (pyReprList xs) ++ "]"
  | .obj fs => "\x7b" ++ joinSep ", " (pyReprFields fs) ++ "\x7d"

/-- Renders the elements of a list with `repr`. -/
def pyReprList : List Json → List String
  | [] => []
  | x :: xs => pyRepr x :: pyReprList xs

/-- Renders the members of a dict with `repr`. -/
def pyReprFields : List (String × Json) → List String
  | [] => []
  | (k, v) :: fs => ("'" ++ k ++ "': " ++ pyRepr v) :: pyReprFields fs

end

/-- Python `str()` of a decoded JSON value; embeds the coercion
`content = str(content)` at `src/app.py` line 254. -/
def pyStr : Json → String
  | .str s => s
  | v => pyRepr v

/-- Python `v == lit` where `v` came out of `dict.get` and `lit` is a string
literal: true only when `v` is that very string (`None == "x"` is `False`). -/
def pyEqStr (v : Option Json) (lit : String) : Bool :=
  match v with
  | some (.str t) => t = lit
  | _ => false

/-- Python truthiness of an optional string (`None` and `""` are falsy). -/
def pyTruthy (v : Option String) : Bool :=
  match v with
  | none => false
  | some s => s ≠ ""

/-- Embeds `strip_fences` from `src/app.py` lines 98–102: trim, then remove a
leading and trailing triple-backtick pair (`t[3:-3]`) and trim again. -/
def strip_fences (t : String) : String :=
  let cs := trimChars t.data
  if prefChars "```".data cs && sufChars "```".data cs then
    String.mk (trimChars ((cs.drop 3).take ((cs.drop 3).length - 3)))
  else String.mk cs

/-- The fallback text `json.dumps({"type": "clarification", "content":
"Sorry, I encountered an error. Please try again."})` returned by
`get_gemini` when the Gemini call raises (`src/app.py` line 197). -/
def FALLBACK_JSON : String :=
  "\x7b\"type\": \"clarification\", \"content\": \"Sorry, I encountered an error. Please try again.\"\x7d"

/-- Outcome of the underlying `model.generate_content(prompt).text` call for
one turn: the raw text, or an exception. -/
abbrev GatewayRes := Except Unit String

/-- Embeds `get_gemini` from `src/app.py` lines 192–197: return the model text
stripped, or on any exception the clarification fallback JSON.  The prompt
is threaded for faithfulness; the gateway outcome is the oracle input. -/
def get_gemini (_prompt : String) (gw : GatewayRes) : String :=
  match gw with
  | .ok t => pyStrip t
  | .error _ => FALLBACK_JSON

/-- A Firestore user document (`get_or_create_user`, `src/app.py`
lines 199–209).  Timestamps are seconds as integers; the
`to_datetime`/timezone normalization at lines 301–304 is the identity in
this model. -/
structure User where
  phone : String
  name : Option String
  account_type : String
  credit_remaining : Int
  credit_reset : Int
  last_prompt : Option String
deriving DecidableEq

/-- The fields of one normalized inbound WhatsApp message that the webhook
reads.  `media` is `some id` exactly when the message carries a truthy
`audio`/`voice` dict whose `id` field is truthy. -/
structure Msg where
  mtype : Option String
  textBody : Option String
  interactiveType : Option String
  buttonId : String
  media : Option String
deriving DecidableEq

/-- One outbound WhatsApp send: `send_text` or `send_buttons`. -/
inductive Out where
  | text (phone : String) (body : String)
  | buttons (phone : String)
deriving DecidableEq

/-- Observable outcome of one webhook turn: the user document as left in the
store, the session history for the phone, the outbound sends in order, and
the prompts passed to `get_gemini`. -/
structure TurnResult where
  store : User
  history : List String
  sent : List Out
  gatewayCalls : List String
deriving DecidableEq

/-- Embeds `deque(maxlen=5).append`: append on the right, evicting from the left
once past capacity 5 (`ensure_session`, `src/app.py` lines 60–67). -/
def dequeAppend5 (h : List String) (x : String) : List String :=
  let l := h ++ [x]
  if l.length > 5 then l.drop (l.length - 5) else l

/-- Embeds `build_prompt` from `src/app.py` lines 215–224.  `sys` is the contents
of `studymate_prompt.txt`, a repository data file not under `src/`; every
theorem quantifies over it.  `user["name"].split()[0]` on a whitespace-only
truthy name would raise IndexError in Python; such a name is unreachable
(onboarding stores names with at least two tokens) and is modelled as `""`. -/
def build_prompt (sys : String) (user : User) (history : List String) (message : String) : String :=
  let parts := [sys]
  let parts := parts ++
    (if pyTruthy user.name then
      ["User name: \"" ++ (pySplit (user.name.getD "")).headD "" ++ "\""]
     else [])
  let parts := parts ++
    (if history.isEmpty then []
     else "Recent messages:" :: history.map (fun h => "- " ++ h))
  let parts := parts ++ ["Current message: \"" ++ message ++ "\"", "JSON:"]
  joinSep "\n" parts

/-- The `try: json.loads … except:` block of `process_user_message`
(`src/app.py` lines 244–254) applied to the cleaned response: on a decoded
dict, `rtype = j.get("type")` and `content = j.get("content", "")` coerced
by `str()`; on decode failure — or a decoded non-dict, whose `.get` raises —
`rtype = "answer"` and `content` is the cleaned text. -/
def interpretParsed (clean : String) : Option Json × String :=
  match json_loads clean with
  | some (Json.obj fields) =>
    (dictGet fields "type", pyStr ((dictGet fields "content").getD (Json.str "")))
  | _ => (some (Json.str "answer"), clean)

/-- The Response Interpreter: `strip_fences` followed by the JSON-parse step
of `process_user_message`. -/
def interpret_response (raw : String) : Option Json × String :=
  interpretParsed (strip_fences raw)

/-- Embeds `process_user_message` from `src/app.py` lines 226–263 (the content
turn): append to the bounded history, clear the context on a topic-switch
phrase, build the prompt over the history minus the current message, call
Gemini, interpret, send the content, attach buttons only when
`rtype == "answer"`, and persist the prompt as `last_prompt`.
`localUser` is the in-memory dict read for `name`; `storeUser` is the
document state in Firestore entering this call. -/
def process_user_message (sys phone text : String) (localUser storeUser : User)
    (history : List String) (gw : GatewayRes) : TurnResult :=
  let h1 := dequeAppend5 history text
  let h2 :=
    if pyIn "switch subject" (pyLower text) || pyIn "new topic" (pyLower text) then [text]
    else h1
  let prompt := build_prompt sys localUser h2.dropLast text
  let raw := get_gemini prompt gw
  let clean := strip_fences raw
  let rc := interpretParsed clean
  let sent :=
    if pyEqStr rc.1 "answer" then [Out.text phone rc.2, Out.buttons phone]
    else [Out.text phone rc.2]
  { store := { storeUser with last_prompt := some prompt },
    history := h2, sent := sent, gatewayCalls := [prompt] }

/-- The message-type dispatch at the tail of `webhook` (`src/app.py`
lines 313–343): interactive button replies, voice messages (the background
transcription thread is not modelled; only the synchronous
acknowledgement), and text messages. -/
def dispatch (sys : String) (msg : Msg) (localUser storeUser : User)
    (history : List String) (gw : GatewayRes) : TurnResult :=
  let phone := localUser.phone
  if msg.mtype = some "interactive" then
    if msg.interactiveType = some "button_reply" then
      if msg.buttonId = "understood" then
        { store := storeUser, history := history,
          sent := [Out.text phone "Great—what’s next?"], gatewayCalls := [] }
      else if msg.buttonId = "explain_more" && pyTruthy localUser.last_prompt then
        let p := localUser.last_prompt.getD "" ++ "\n\nPlease explain in more detail."
        let more := get_gemini p gw
        let more_clean := strip_fences more
        { store := storeUser, history := history,
          sent := [Out.text phone more_clean, Out.buttons phone], gatewayCalls := [p] }
      else
        { store := storeUser, history := history, sent := [], gatewayCalls := [] }
    else
      { store := storeUser, history := history, sent := [], gatewayCalls := [] }
  else if (msg.mtype = some "audio" || msg.mtype = some "voice") && msg.media.isSome then
    { store := storeUser, history := history,
      sent := [Out.text phone "Processing your voice message..."], gatewayCalls := [] }
  else
    let text := pyStrip (msg.textBody.getD "")
    if text = "" then
      { store := storeUser, history := history, sent := [], gatewayCalls := [] }
    else
      process_user_message sys phone text localUser storeUser history gw

/-- The POST branch of `webhook` (`src/app.py` lines 273–343) for one
message from `user.phone`: name onboarding, the free-tier credit
reset/check/decrement, then `dispatch`.  The envelope parsing and the
missing-phone early return are outside the model (the spec excludes
transport normalization); `now` is `datetime.utcnow()` in seconds. -/
def webhook (sys : String) (msg : Msg) (user : User) (now : Int)
    (history : List String) (gw : GatewayRes) : TurnResult :=
  let phone := user.phone
  if user.name = none then
    let text := msg.textBody.getD ""
    if 2 ≤ (pySplit text).length then
      { store := { user with name := some text }, history := history,
        sent := [Out.text phone
          ("What would you like to study today, " ++ (pySplit text).headD "" ++ "?")],
        gatewayCalls := [] }
    else
      { store := user, history := history,
        sent := [Out.text phone "Please share your full name (first and last)."],
        gatewayCalls := [] }
  else if user.account_type = "free" then
    let store1 :=
      if now ≥ user.credit_reset then
        { user with credit_remaining := 20, credit_reset := now + 86400 }
      else user
    let localCredit : Int := if now ≥ user.credit_reset then 20 else user.credit_remaining
    if localCredit ≤ 0 then
      { store := store1, history := history,
        sent := [Out.text phone "Free limit reached (20/day). Upgrade for unlimited usage."],
        gatewayCalls := [] }
    else
      dispatch sys msg user { store1 with credit_remaining := localCredit - 1 } history gw
  else
    dispatch sys msg user user history gw

/-! ## Helper lemmas -/

/-- The function `dispatch` never touches the credit fields of the stored document: only
`last_prompt` is written after the quota block. -/
lemma dispatch_credit (sys : String) (msg : Msg) (lu su : User)
    (history : List String) (gw : GatewayRes) :
    (dispatch sys msg lu su history gw).store.credit_remaining = su.credit_remaining ∧
    (dispatch sys msg lu su history gw).store.credit_reset = su.credit_reset := by
  refine ⟨?_, ?_⟩ <;>
  · unfold dispatch process_user_message
    dsimp only
    repeat' split
    all_goals rfl

/-- One content turn leaves the history a suffix of the old history with the
new message appended. -/
lemma process_history_suffix (sys phone text : String) (lu su : User)
    (history : List String) (gw : GatewayRes) :
    (process_user_message sys phone text lu su history gw).history <:+ history ++ [text] := by
  unfold process_user_message dequeAppend5
  dsimp only
  split
  · exact ⟨history, rfl⟩
  · split
    · exact List.drop_suffix _ _
    · exact List.suffix_refl _

/-- One content turn keeps the history within the deque capacity 5. -/
lemma process_history_len (sys phone text : String) (lu su : User)
    (history : List String) (gw : GatewayRes) (h : history.length ≤ 5) :
    (process_user_message sys phone text lu su history gw).history.length ≤ 5 := by
  unfold process_user_message dequeAppend5
  dsimp only
  split
  · simp
  · split
    · simp only [List.length_drop]
      omega
    · simp only [List.length_append, List.length_singleton] at *
      omega

/-- Appending on the right preserves the suffix relation. -/
lemma suffix_append_right {α : Type} {a b : List α} (c : List α) (h : a <:+ b) :
    a ++ c <:+ b ++ c := by
  obtain ⟨w, rfl⟩ := h
  exact ⟨w, (List.append_assoc w a c).symm⟩

/-- The session history produced by a sequence of content turns for one
phone, starting from history `h0` (`sessions[phone]["history"]`). -/
def content_history_run (sys phone : String) (lu su : User) (gw : GatewayRes)
    (h0 : List String) (inputs : List String) : List String :=
  inputs.foldl (fun h t => (process_user_message sys phone t lu su h gw).history) h0

/-- After any run of content turns the history is a suffix of the starting
history followed by the inputs in order. -/
lemma content_history_run_suffix (sys phone : String) (lu su : User) (gw : GatewayRes) :
    ∀ (inputs h0 : List String),
      content_history_run sys phone lu su gw h0 inputs <:+ h0 ++ inputs
  | [], h0 => by simp [content_history_run]
  | t :: ts, h0 => by
    have step := process_history_suffix sys phone t lu su h0 gw
    have ih := content_history_run_suffix sys phone lu su gw ts
      ((process_user_message sys phone t lu su h0 gw).history)
    have : (process_user_message sys phone t lu su h0 gw).history ++ ts <:+ (h0 ++ [t]) ++ ts :=
      suffix_append_right ts step
    calc content_history_run sys phone lu su gw h0 (t :: ts)
        <:+ (process_user_message sys phone t lu su h0 gw).history ++ ts := ih
      _ <:+ (h0 ++ [t]) ++ ts := this
      _ = h0 ++ (t :: ts) := by simp

/-- The capacity bound is preserved along any run of content turns. -/
lemma content_history_run_len (sys phone : String) (lu su : User) (gw : GatewayRes) :
    ∀ (inputs h0 : List String), h0.length ≤ 5 →
      (content_history_run sys phone lu su gw h0 inputs).length ≤ 5
  | [], _, h => h
  | t :: ts, h0, h =>
    content_history_run_len sys phone lu su gw ts _
      (process_history_len sys phone t lu su h0 gw h)

/-! ## Claims -/

/-- The fenced raw text of claim C1. -/
def C1_RAW : String := "```json\n\x7b\"type\":\"answer\",\"content\":\"x\"\x7d\n```"

/-- C1 (counterexample): the Response Interpreter applied to the fenced raw
text with a `json` language tag does NOT yield content `"x"`:
`strip_fences` removes only the backtick delimiters, keeps the `json` tag
line, so the strict JSON decode fails and the whole cleaned text becomes the
content. -/
theorem C1_counterexample : (interpret_response C1_RAW).2 ≠ "x" := by decide

/-- C1 (amended): for the fenced, `json`-tagged raw text the interpreter
yields kind `answer` with the content being the cleaned text retaining the
`json` tag line (the tag is not stripped, the decode fails, and the
interpreter falls back to the raw text); plain unwrapped text `"hello"`
yields kind `answer` and content `"hello"` without raising. -/
theorem C1_amended :
    interpret_response C1_RAW =
      (some (Json.str "answer"), "json\n\x7b\"type\":\"answer\",\"content\":\"x\"\x7d") ∧
    interpret_response "hello" = (some (Json.str "answer"), "hello") :=
  ⟨rfl, rfl⟩

/-- C2: for a user record with `account_type = "free"` and
`credit_remaining = 0` whose turn arrives strictly before `credit_reset`,
the webhook sends exactly the limit-reached notice and terminates the turn
with no call to the model gateway. -/
theorem C2_quota_reject (sys : String) (msg : Msg) (user : User) (now : Int)
    (history : List String) (gw : GatewayRes) (nm : String)
    (hname : user.name = some nm) (htier : user.account_type = "free")
    (hq : user.credit_remaining = 0) (ht : now < user.credit_reset) :
    (webhook sys msg user now history gw).sent =
      [Out.text user.phone "Free limit reached (20/day). Upgrade for unlimited usage."] ∧
    (webhook sys msg user now history gw).gatewayCalls = [] := by
  have h2 : ¬ now ≥ user.credit_reset := not_le.mpr ht
  unfold webhook
  simp [hname, htier, h2, hq]

/-- C2 witness. -/
theorem C2_quota_reject_witness :
    (webhook "S" ⟨some "text", some "q", none, "", none⟩
        ⟨"123", some "Jane Doe", "free", 0, 1000, none⟩ 500 [] (.ok "x")).sent =
      [Out.text "123" "Free limit reached (20/day). Upgrade for unlimited usage."] ∧
    (webhook "S" ⟨some "text", some "q", none, "", none⟩
        ⟨"123", some "Jane Doe", "free", 0, 1000, none⟩ 500 [] (.ok "x")).gatewayCalls = [] :=
  C2_quota_reject "S" _ _ 500 [] _ "Jane Doe" rfl rfl rfl (by decide)

/-- C3: a free-tier turn arriving at `now ≥ credit_reset` resets the credit
to the ceiling 20, sets the next reset to `now` plus 24h (86400 s), and the
same turn consumes one unit, leaving the stored `credit_remaining` at 19 —
whatever the message contains. -/
theorem C3_reset_and_decrement (sys : String) (msg : Msg) (user : User) (now : Int)
    (history : List String) (gw : GatewayRes) (nm : String)
    (hname : user.name = some nm) (htier : user.account_type = "free")
    (ht : now ≥ user.credit_reset) :
    (webhook sys msg user now history gw).store.credit_remaining = 19 ∧
    (webhook sys msg user now history gw).store.credit_reset = now + 86400 := by
  unfold webhook
  dsimp only
  simp only [hname, htier, ht, reduceCtorEq, if_false, if_true, reduceIte]
  have h20 : ¬ (20 : Int) ≤ 0 := by norm_num
  simp only [h20, if_false, reduceIte]
  constructor
  · rw [(dispatch_credit _ _ _ _ _ _).1]
    norm_num
  · rw [(dispatch_credit _ _ _ _ _ _).2]

/-- C3 witness. -/
theorem C3_reset_and_decrement_witness :
    (webhook "S" ⟨some "text", some "q", none, "", none⟩
        ⟨"123", some "Jane Doe", "free", 0, 1000, none⟩ 2000 [] (.ok "x")).store.credit_remaining
      = 19 ∧
    (webhook "S" ⟨some "text", some "q", none, "", none⟩
        ⟨"123", some "Jane Doe", "free", 0, 1000, none⟩ 2000 [] (.ok "x")).store.credit_reset
      = 88400 :=
  C3_reset_and_decrement "S" _ _ 2000 [] _ "Jane Doe" rfl rfl (by decide)

/-- C4: with `name` absent, a one-token inbound text yields exactly the
name-request reply and leaves the record untouched, while a text of two or
more tokens persists the full text as the name and sends the welcome
prompt; either way the turn makes no gateway call and consumes no credit
(the whole result is given, so nothing else is sent or written). -/
theorem C4_onboarding (sys : String) (msg : Msg) (user : User) (now : Int)
    (history : List String) (gw : GatewayRes) (hname : user.name = none) :
    ((pySplit (msg.textBody.getD "")).length = 1 →
      webhook sys msg user now history gw =
        { store := user, history := history,
          sent := [Out.text user.phone "Please share your full name (first and last)."],
          gatewayCalls := [] }) ∧
    (2 ≤ (pySplit (msg.textBody.getD "")).length →
      webhook sys msg user now history gw =
        { store := { user with name := some (msg.textBody.getD "") }, history := history,
          sent := [Out.text user.phone
            ("What would you like to study today, "
              ++ (pySplit (msg.textBody.getD "")).headD "" ++ "?")],
          gatewayCalls := [] }) := by
  constructor
  · intro h1
    have h2 : ¬ 2 ≤ (pySplit (msg.textBody.getD "")).length := by omega
    unfold webhook
    simp [hname, h2]
  · intro h2
    unfold webhook
    simp [hname, h2]

/-- C4 witness: `"hi"` requests a name, `"Jane Doe"` is persisted. -/
theorem C4_onboarding_witness :
    webhook "S" ⟨some "text", some "hi", none, "", none⟩
        ⟨"123", none, "free", 5, 1000, none⟩ 0 [] (.ok "x") =
      { store := ⟨"123", none, "free", 5, 1000, none⟩, history := [],
        sent := [Out.text "123" "Please share your full name (first and last)."],
        gatewayCalls := [] } ∧
    webhook "S" ⟨some "text", some "Jane Doe", none, "", none⟩
        ⟨"123", none, "free", 5, 1000, none⟩ 0 [] (.ok "x") =
      { store := ⟨"123", some "Jane Doe", "free", 5, 1000, none⟩, history := [],
        sent := [Out.text "123" "What would you like to study today, Jane?"],
        gatewayCalls := [] } :=
  ⟨(C4_onboarding "S" _ _ 0 [] _ rfl).1 (by decide),
   (C4_onboarding "S" _ _ 0 [] _ rfl).2 (by decide)⟩

/-- On a gateway exception the interpreted fallback is a `clarification`
with the fixed apology text, for any prompt. -/
lemma interpret_gateway_error (p : String) :
    interpretParsed (strip_fences (get_gemini p (.error ()))) =
      (some (Json.str "clarification"), "Sorry, I encountered an error. Please try again.") :=
  rfl

/-- A content turn whose gateway call raises sends exactly one text: the
clarification fallback, with no buttons. -/
lemma process_error_sent (sys phone text : String) (lu su : User)
    (history : List String) :
    (process_user_message sys phone text lu su history (.error ())).sent =
      [Out.text phone "Sorry, I encountered an error. Please try again."] := by
  unfold process_user_message
  dsimp only
  rw [interpret_gateway_error]
  rfl

/-- C5: if the Model Gateway raises during a content turn (a text message
with nonempty stripped body, from an onboarded user who passes the quota
gate), the dispatcher catches it and the user receives exactly one outbound
text — the clarification fallback, whose kind `clarification` attaches no
follow-up buttons — and the model of the dispatcher is a total function, so
no exception escapes. -/
theorem C5_gateway_error (sys t : String) (user : User) (now : Int)
    (history : List String) (nm : String)
    (hname : user.name = some nm)
    (hgate : user.account_type = "free" → now ≥ user.credit_reset ∨ 0 < user.credit_remaining)
    (htext : pyStrip t ≠ "") :
    (webhook sys ⟨some "text", some t, none, "", none⟩ user now history (.error ())).sent =
      [Out.text user.phone "Sorry, I encountered an error. Please try again."] := by
  have hdisp : ∀ su : User,
      (dispatch sys ⟨some "text", some t, none, "", none⟩ user su history (.error ())).sent =
        [Out.text user.phone "Sorry, I encountered an error. Please try again."] := by
    intro su
    unfold dispatch
    simp only [Option.some.injEq, reduceCtorEq, if_false, Option.getD_some, Option.isSome_none,
      Bool.and_false, Bool.false_and, Bool.or_self, Bool.false_eq_true, String.reduceEq,
      reduceIte, htext]
    exact process_error_sent sys user.phone (pyStrip t) user su history
  unfold webhook
  by_cases hft : user.account_type = "free"
  · by_cases hge : now ≥ user.credit_reset
    · simp only [hname, reduceCtorEq, if_false, hft, if_true, hge, reduceIte]
      have h20 : ¬ (20 : Int) ≤ 0 := by norm_num
      simp only [h20, reduceIte, if_false]
      exact hdisp _
    · have hcred : 0 < user.credit_remaining := (hgate hft).resolve_left hge
      have hc : ¬ user.credit_remaining ≤ 0 := not_le.mpr hcred
      simp only [hname, reduceCtorEq, if_false, hft, if_true, hge, reduceIte, hc]
      exact hdisp _
  · simp only [hname, reduceCtorEq, if_false, hft, reduceIte]
    exact hdisp _

/-- C5 witness. -/
theorem C5_gateway_error_witness :
    (webhook "S" ⟨some "text", some "what is gravity", none, "", none⟩
        ⟨"123", some "Jane Doe", "free", 5, 1000, none⟩ 0 [] (.error ())).sent =
      [Out.text "123" "Sorry, I encountered an error. Please try again."] :=
  C5_gateway_error "S" "what is gravity" _ 0 [] "Jane Doe" rfl
    (fun _ => Or.inr (by decide)) (by decide)

/-- C6 (counterexample): a concrete `explain_more` button reply from an
onboarded user with no `last_prompt` produces NO outbound message at all —
the claimed prompt-to-restate reply is never sent (the gateway is indeed
not called). -/
theorem C6_counterexample :
    (webhook "S" ⟨some "interactive", none, some "button_reply", "explain_more", none⟩
        ⟨"123", some "Jane Doe", "premium", 0, 0, none⟩ 0 [] (.ok "x")).sent = [] ∧
    (webhook "S" ⟨some "interactive", none, some "button_reply", "explain_more", none⟩
        ⟨"123", some "Jane Doe", "premium", 0, 0, none⟩ 0 [] (.ok "x")).gatewayCalls = [] :=
  ⟨rfl, rfl⟩

/-- C6 (amended): for every turn whose inbound event is a `button_reply`
with id `explain_more` and whose user record has no (truthy) `last_prompt`,
the dispatcher never calls the Model Gateway and sends nothing at all: the
`elif` guard fails and the turn ends silently, without the restate request
the spec describes. -/
theorem C6_explain_more_silent (sys : String) (msg : Msg) (user : User) (now : Int)
    (history : List String) (gw : GatewayRes) (nm : String)
    (hname : user.name = some nm)
    (hgate : user.account_type = "free" → now ≥ user.credit_reset ∨ 0 < user.credit_remaining)
    (hm : msg.mtype = some "interactive") (hit : msg.interactiveType = some "button_reply")
    (hb : msg.buttonId = "explain_more") (hlp : pyTruthy user.last_prompt = false) :
    (webhook sys msg user now history gw).gatewayCalls = [] ∧
    (webhook sys msg user now history gw).sent = [] := by
  have hdisp : ∀ su : User,
      (dispatch sys msg user su history gw).gatewayCalls = [] ∧
      (dispatch sys msg user su history gw).sent = [] := by
    intro su
    unfold dispatch
    simp [hm, hit, hb, hlp]
  unfold webhook
  by_cases hft : user.account_type = "free"
  · by_cases hge : now ≥ user.credit_reset
    · have h20 : ¬ (20 : Int) ≤ 0 := by norm_num
      simp only [hname, reduceCtorEq, if_false, hft, if_true, hge, reduceIte, h20]
      exact hdisp _
    · have hcred : 0 < user.credit_remaining := (hgate hft).resolve_left hge
      have hc : ¬ user.credit_remaining ≤ 0 := not_le.mpr hcred
      simp only [hname, reduceCtorEq, if_false, hft, if_true, hge, reduceIte, hc]
      exact hdisp _
  · simp only [hname, reduceCtorEq, if_false, hft, reduceIte]
    exact hdisp _

/-- C6 (amended) witness. -/
theorem C6_explain_more_silent_witness :
    (webhook "S" ⟨some "interactive", none, some "button_reply", "explain_more", none⟩
        ⟨"456", some "Ada Lovelace", "free", 3, 1000, none⟩ 0 [] (.ok "x")).gatewayCalls = [] ∧
    (webhook "S" ⟨some "interactive", none, some "button_reply", "explain_more", none⟩
        ⟨"456", some "Ada Lovelace", "free", 3, 1000, none⟩ 0 [] (.ok "x")).sent = [] :=
  C6_explain_more_silent "S" _ _ 0 [] _ "Ada Lovelace" rfl
    (fun _ => Or.inr (by decide)) rfl rfl rfl rfl

/-- C7 (counterexample): a model response that strict-JSON-decodes to an
object with NO `type` field is not treated as an `answer`: the interpreted
kind is Python `None`, and in a concrete content turn the reply carries no
quick-reply buttons, contrary to the claimed defaulting. -/
theorem C7_counterexample :
    (interpret_response "\x7b\"content\":\"hi\"\x7d").1 = none ∧
    (webhook "S" ⟨some "text", some "q", none, "", none⟩
        ⟨"123", some "Jane Doe", "premium", 0, 0, none⟩ 0 []
        (.ok "\x7b\"content\":\"hi\"\x7d")).sent = [Out.text "123" "hi"] :=
  ⟨rfl, rfl⟩

/-- C7 (amended): for every model response that strict-JSON-decodes to an
object, the interpreted kind equals the object's `type` field exactly as
`dict.get` returns it — `None` when absent, with no defaulting to `answer`
(buttons are attached only when the field is the string `"answer"`) — and
the decoded `content` (defaulting to `""`) is coerced to a string by
`str()` if it decoded as a non-string. -/
theorem C7_type_field_verbatim (raw : String) (fields : List (String × Json))
    (h : json_loads (strip_fences raw) = some (Json.obj fields)) :
    interpret_response raw =
      (dictGet fields "type", pyStr ((dictGet fields "content").getD (Json.str ""))) := by
  unfold interpret_response interpretParsed
  rw [h]

/-- C7 witness: a decoded object with `type = "answer"` and an integer
`content` is interpreted with the verbatim kind and the stringified
content. -/
theorem C7_type_field_verbatim_witness :
    interpret_response "\x7b\"type\":\"answer\",\"content\":5\x7d" =
      (some (Json.str "answer"), "5") :=
  C7_type_field_verbatim "\x7b\"type\":\"answer\",\"content\":5\x7d"
    [("type", Json.str "answer"), ("content", Json.num 5)] rfl

/-- C8: the session history (a `deque(maxlen=5)`) never exceeds capacity
N = 5 along any run of content turns starting within capacity; and after 6
sequential content turns from an empty session, the first of those 6 inputs
— identifiable because it does not recur among the later five — is no
longer present in history (oldest evicted first). -/
theorem C8_history_bounded (sys phone : String) (lu su : User) (gw : GatewayRes) :
    (∀ (h0 inputs : List String), h0.length ≤ 5 →
      (content_history_run sys phone lu su gw h0 inputs).length ≤ 5) ∧
    (∀ i1 i2 i3 i4 i5 i6 : String, i1 ∉ [i2, i3, i4, i5, i6] →
      i1 ∉ content_history_run sys phone lu su gw [] [i1, i2, i3, i4, i5, i6]) := by
  constructor
  · intro h0 inputs h
    exact content_history_run_len sys phone lu su gw inputs h0 h
  · intro i1 i2 i3 i4 i5 i6 hnotin hmem
    have hsuf : content_history_run sys phone lu su gw [] [i1, i2, i3, i4, i5, i6] <:+
        [i1, i2, i3, i4, i5, i6] := by
      simpa using content_history_run_suffix sys phone lu su gw [i1, i2, i3, i4, i5, i6] []
    have hlen : (content_history_run sys phone lu su gw [] [i1, i2, i3, i4, i5, i6]).length ≤ 5 :=
      content_history_run_len sys phone lu su gw _ [] (by simp)
    obtain ⟨w, hw⟩ := hsuf
    match w, hw with
    | [], hw =>
      have : (content_history_run sys phone lu su gw [] [i1, i2, i3, i4, i5, i6]).length = 6 := by
        rw [List.nil_append] at hw
        rw [hw]
        rfl
      omega
    | a :: w', hw =>
      have htail : w' ++ content_history_run sys phone lu su gw [] [i1, i2, i3, i4, i5, i6] =
          [i2, i3, i4, i5, i6] := by
        have := congrArg List.tail hw
        simpa using this
      have : i1 ∈ [i2, i3, i4, i5, i6] := by
        rw [← htail]
        exact List.mem_append_right w' hmem
      exact hnotin this

/-- C8 witness: six concrete turns from an empty session. -/
theorem C8_history_bounded_witness :
    (content_history_run "S" "p" ⟨"p", some "A B", "free", 1, 0, none⟩
        ⟨"p", some "A B", "free", 1, 0, none⟩ (.ok "x") []
        ["m1", "m2", "m3", "m4", "m5", "m6"]).length ≤ 5 ∧
    "m1" ∉ content_history_run "S" "p" ⟨"p", some "A B", "free", 1, 0, none⟩
        ⟨"p", some "A B", "free", 1, 0, none⟩ (.ok "x") []
        ["m1", "m2", "m3", "m4", "m5", "m6"] :=
  ⟨(C8_history_bounded "S" "p" _ _ (.ok "x")).1 [] _ (by decide),
   (C8_history_bounded "S" "p" _ _ (.ok "x")).2 "m1" "m2" "m3" "m4" "m5" "m6" (by decide)⟩

/-- C9: a content turn whose text, lowercased, contains `"switch subject"`
or `"new topic"` clears the session history, leaves exactly the current
message in it, and builds its prompt over the empty prior history (so no
`Recent messages` lines appear). -/
theorem C9_topic_switch (sys phone text : String) (lu su : User)
    (history : List String) (gw : GatewayRes)
    (h : pyIn "switch subject" (pyLower text) = true ∨ pyIn "new topic" (pyLower text) = true) :
    (process_user_message sys phone text lu su history gw).history = [text] ∧
    (process_user_message sys phone text lu su history gw).gatewayCalls =
      [build_prompt sys lu [] text] := by
  have hcond : (pyIn "switch subject" (pyLower text) || pyIn "new topic" (pyLower text)) = true := by
    rcases h with h | h <;> simp [h]
  unfold process_user_message
  dsimp only
  rw [hcond]
  simp

/-- C9 witness. -/
theorem C9_topic_switch_witness :
    (process_user_message "S" "123" "Switch subject to algebra"
        ⟨"123", some "Jane Doe", "free", 1, 0, none⟩
        ⟨"123", some "Jane Doe", "free", 1, 0, none⟩ ["old1", "old2"] (.ok "x")).history =
      ["Switch subject to algebra"] ∧
    (process_user_message "S" "123" "Switch subject to algebra"
        ⟨"123", some "Jane Doe", "free", 1, 0, none⟩
        ⟨"123", some "Jane Doe", "free", 1, 0, none⟩ ["old1", "old2"] (.ok "x")).gatewayCalls =
      [build_prompt "S" ⟨"123", some "Jane Doe", "free", 1, 0, none⟩ []
        "Switch subject to algebra"] :=
  C9_topic_switch "S" "123" "Switch subject to algebra" _ _ ["old1", "old2"] (.ok "x")
    (Or.inl (by decide))

/-- C10: every onboarded free-tier turn that passes the quota gate writes
`credit_remaining - 1` (after any reset) to the store before the message is
dispatched, for EVERY message shape — so a turn that produces no outbound
reply (empty text body, unrecognized interactive event) still consumes one
unit. -/
theorem C10_decrement_before_dispatch (sys : String) (msg : Msg) (user : User) (now : Int)
    (history : List String) (gw : GatewayRes) (nm : String)
    (hname : user.name = some nm) (htier : user.account_type = "free")
    (hgate : now ≥ user.credit_reset ∨ 0 < user.credit_remaining) :
    (webhook sys msg user now history gw).store.credit_remaining =
      (if now ≥ user.credit_reset then 20 else user.credit_remaining) - 1 := by
  unfold webhook
  by_cases hge : now ≥ user.credit_reset
  · have h20 : ¬ (20 : Int) ≤ 0 := by norm_num
    simp only [hname, reduceCtorEq, if_false, htier, if_true, hge, reduceIte, h20]
    rw [(dispatch_credit _ _ _ _ _ _).1]
  · have hcred : 0 < user.credit_remaining := hgate.resolve_left hge
    have hc : ¬ user.credit_remaining ≤ 0 := not_le.mpr hcred
    simp only [hname, reduceCtorEq, if_false, htier, if_true, hge, reduceIte, hc]
    rw [(dispatch_credit _ _ _ _ _ _).1]

/-- C10 witness: an inbound message with an EMPTY text body still consumes
one credit (5 → 4) although nothing is sent back. -/
theorem C10_decrement_before_dispatch_witness :
    (webhook "S" ⟨some "text", some "", none, "", none⟩
        ⟨"123", some "Jane Doe", "free", 5, 1000, none⟩ 0 [] (.ok "x")).store.credit_remaining
      = 4 ∧
    (webhook "S" ⟨some "text", some "", none, "", none⟩
        ⟨"123", some "Jane Doe", "free", 5, 1000, none⟩ 0 [] (.ok "x")).sent = [] :=
  ⟨C10_decrement_before_dispatch "S" _ _ 0 [] (.ok "x") "Jane Doe" rfl rfl
      (Or.inr (by decide)),
   rfl⟩
